import Mathlib

/-!
Verification of the Health-Hero medical-bill pipeline core.

This file gives a shallow embedding of the deterministic scaffolding of the
repository: the response normalizers of `backend/agents/extraction_agent.py`
and `backend/agents/analysis_agent.py`, the dual-extraction selector of
`backend/ocr/pipeline.py` (with the per-page loops of
`backend/ocr/pdf_extractor.py` and `backend/ocr/image_ocr.py`), the stage
pipeline and aggregator of `backend/agents/pipeline.py`, and the debate
orchestration of `backend/agents/debate.py`.

External collaborators (the OpenAI completion service, `json.loads`,
pdfplumber, tesseract) are modelled as abstract inputs: a completion call
is a total oracle, a parse attempt is an `Except` value carrying either the
parsed JSON tree or the decoder's message, and an extraction strategy is the
`Except` outcome of invoking it.  Python floats are modelled as exact
rationals; `round(x, 2)` is modelled with round-half-even tie-breaking.
-/

namespace HealthHero

/-- JSON values as produced by `json.loads`: the object case keeps the key
insertion order of the Python dict, which the source iterates over. -/
inductive Json where
  | null : Json
  | bool : Bool → Json
  | num : Rat → Json
  | str : String → Json
  | arr : List Json → Json
  | obj : List (String × Json) → Json

/-- Whether a JSON value is a Python `list` (`isinstance(v, list)`). -/
def Json.isArr : Json → Bool
  | .arr _ => true
  | _ => false

/-- Whether a JSON value is a Python `dict` (`isinstance(v, dict)`). -/
def Json.isObj : Json → Bool
  | .obj _ => true
  | _ => false

/-- The field list of a JSON object, `none` for any other value. -/
def Json.asObj : Json → Option (List (String × Json))
  | .obj fs => some fs
  | _ => none

/-- Python dict lookup `d[k]` / `k in d` on the ordered field list. -/
def lookupField (fs : List (String × Json)) (k : String) : Option Json :=
  fs.lookup k

/-- Python truthiness of a JSON value (`if v:`). -/
def jsonTruthy : Json → Bool
  | .null => false
  | .bool b => b
  | .num q => q != 0
  | .str s => s != ""
  | .arr l => !l.isEmpty
  | .obj fs => !fs.isEmpty

/-- The characters stripped by Python `str.strip()`. -/
def isPySpace (c : Char) : Bool :=
  c == ' ' || c == '\t' || c == '\n' || c == '\r' || c == '\x0b' || c == '\x0c'

/-- Strip leading and trailing whitespace from a character list. -/
def stripChars (l : List Char) : List Char :=
  ((l.dropWhile isPySpace).reverse.dropWhile isPySpace).reverse

/-- Python `str.strip()`. -/
def pyStrip (s : String) : String :=
  ⟨stripChars s.data⟩

/-- Python `str.lower()` as a character-wise map (`String.toLower` stated
over the character list, so that it reduces in the kernel). -/
def pyLower (s : String) : String :=
  ⟨s.data.map Char.toLower⟩

/-- Python `str(v)` on a JSON value.  Only the string case is load-bearing
for the normalizers; the renderings of the other constructors approximate
Python's and never collide with the flag-level enum. -/
def pyStr : Json → String
  | .str s => s
  | .null => "None"
  | .bool true => "True"
  | .bool false => "False"
  | .num q => toString q.num ++ (if q.den = 1 then ".0" else "/" ++ toString q.den)
  | .arr _ => "[...]"
  | .obj _ => "[object]"

/-- Digits of a numeral, most significant first, as a natural number. -/
def digitsToNat (cs : List Char) : Nat :=
  cs.foldl (fun a c => a * 10 + (c.toNat - 48)) 0

/-- Parse an unsigned decimal numeral `digits[.digits]`. -/
def parseUnsignedDecimal (cs : List Char) : Option Rat :=
  match cs.span (·.isDigit) with
  | (int, []) =>
    if int.isEmpty then none else some ((digitsToNat int : Int) : Rat)
  | (int, '.' :: frac) =>
    if frac.all (·.isDigit) && !(int.isEmpty && frac.isEmpty) then
      some (((digitsToNat int : Int) : Rat) + ((digitsToNat frac : Int) : Rat) / ((10 : Rat) ^ frac.length))
    else none
  | _ => none

/-- Python `float(s)` on a plain decimal string (the only numeral shapes the
normalizers can meet from JSON-encoded payloads); other strings fail. -/
def pyFloatOfString (s : String) : Option Rat :=
  match (pyStrip s).data with
  | '-' :: rest => (parseUnsignedDecimal rest).map (fun q => -q)
  | '+' :: rest => parseUnsignedDecimal rest
  | cs => parseUnsignedDecimal cs

/-- Python `float(v)` on a JSON value: numbers and booleans convert, numeric
strings parse, and `None`/lists/dicts raise (`TypeError`/`ValueError`). -/
def pyFloat : Json → Except String Rat
  | .num q => .ok q
  | .bool b => .ok (if b then 1 else 0)
  | .str s =>
    match pyFloatOfString s with
    | some q => .ok q
    | none => .error ("could not convert string to float: " ++ s)
  | .null => .error "float() argument must not be None"
  | .arr _ => .error "float() argument must not be a list"
  | .obj _ => .error "float() argument must not be a dict"

/-! ## Data model -/

/-- One billed line item, as produced by the extraction normalizer
(`extraction_agent.py`, lines 139-145).  `notes` keeps whatever truthy JSON
value the source dict carried, since the code stores it unconverted. -/
structure LineItem where
  code : String
  description : String
  quantity : Rat
  price : Rat
  notes : Option Json

/-- One analyzed line item, as produced by the analysis normalizer
(`analysis_agent.py`, lines 151-168). -/
structure AnalysisItem where
  code : String
  description : String
  quantity : Rat
  price : Rat
  notes : Option Json
  expected_cost : Rat
  overcharge_flag : Bool
  flag_level : String
  issue : Option Json

/-! ## Response normalizers

`json.loads` is abstracted as an `Except String Json` input: `.ok` carries
the parsed tree, `.error` the `JSONDecodeError` message. -/

/-- Payload unwrapping of `extraction_agent.py` lines 114-127: keys
`line_items` then `items`, else the single key's value, else the first list
value, else the empty list; a non-dict top-level value is used as-is. -/
def unwrap_extraction : Json → Json
  | .obj fs =>
    match lookupField fs "line_items" with
    | some v => v
    | none =>
      match lookupField fs "items" with
      | some v => v
      | none =>
        match fs with
        | [(_, v)] => v
        | _ =>
          match fs.find? (fun p => (p.2).isArr) with
          | some kv => kv.2
          | none => Json.arr []
  | j => j

/-- Payload unwrapping of `analysis_agent.py` lines 127-139: like the
extraction stage but with the stage-specific `analysis` key third. -/
def unwrap_analysis : Json → Json
  | .obj fs =>
    match lookupField fs "line_items" with
    | some v => v
    | none =>
      match lookupField fs "items" with
      | some v => v
      | none =>
        match lookupField fs "analysis" with
        | some v => v
        | none =>
          match fs with
          | [(_, v)] => v
          | _ =>
            match fs.find? (fun p => (p.2).isArr) with
            | some kv => kv.2
            | none => Json.arr []
  | j => j

/-- Field coercion for one extraction record (`extraction_agent.py` lines
139-145): strings are `str(...).strip()`-ed, numerics go through `float`
with defaults `1.0`/`0.0` on absence, and falsy notes collapse to `none`.
A failing `float` cast escapes as the stage's error, as in the source. -/
def normalizeLineItem (fs : List (String × Json)) : Except String LineItem :=
  match (match lookupField fs "quantity" with | some v => pyFloat v | none => .ok 1) with
  | .error e => .error e
  | .ok quantity =>
    match (match lookupField fs "price" with | some v => pyFloat v | none => .ok 0) with
    | .error e => .error e
    | .ok price =>
      .ok
        { code := pyStrip (pyStr ((lookupField fs "code").getD (Json.str "")))
          description := pyStrip (pyStr ((lookupField fs "description").getD (Json.str "")))
          quantity := quantity
          price := price
          notes :=
            if jsonTruthy ((lookupField fs "notes").getD Json.null) then
              some ((lookupField fs "notes").getD Json.null)
            else none }

/-- Field coercion for one analysis record (`analysis_agent.py` lines
151-167): the extraction fields plus `expected_cost` (defaulting to the raw
`price` value, then `0.0`), truthiness-cast `overcharge_flag`, the
lowercased `flag_level` collapsed to `"low"` outside the closed enum, and
falsy `issue` collapsed to `none`. -/
def normalizeAnalysisItem (fs : List (String × Json)) : Except String AnalysisItem :=
  match (match lookupField fs "quantity" with | some v => pyFloat v | none => .ok 1) with
  | .error e => .error e
  | .ok quantity =>
    match (match lookupField fs "price" with | some v => pyFloat v | none => .ok 0) with
    | .error e => .error e
    | .ok price =>
      match
        (match lookupField fs "expected_cost" with
         | some v => pyFloat v
         | none =>
           match lookupField fs "price" with
           | some v => pyFloat v
           | none => .ok 0) with
      | .error e => .error e
      | .ok expected_cost =>
        let flRaw := pyLower (pyStr ((lookupField fs "flag_level").getD (Json.str "low")))
        .ok
          { code := pyStrip (pyStr ((lookupField fs "code").getD (Json.str "")))
            description := pyStrip (pyStr ((lookupField fs "description").getD (Json.str "")))
            quantity := quantity
            price := price
            notes :=
              if jsonTruthy ((lookupField fs "notes").getD Json.null) then
                some ((lookupField fs "notes").getD Json.null)
              else none
            expected_cost := expected_cost
            overcharge_flag := jsonTruthy ((lookupField fs "overcharge_flag").getD (Json.bool false))
            flag_level := if flRaw = "low" ∨ flRaw = "medium" ∨ flRaw = "high" then flRaw else "low"
            issue :=
              if jsonTruthy ((lookupField fs "issue").getD Json.null) then
                some ((lookupField fs "issue").getD Json.null)
              else none }

/-- The per-element loop of `extraction_agent.py` lines 134-146: non-dict
elements are skipped with `continue`; a failing coercion aborts the stage. -/
def normalizeLineItems : List Json → Except String (List LineItem)
  | [] => .ok []
  | .obj fs :: rest =>
    match normalizeLineItem fs with
    | .error e => .error e
    | .ok item =>
      match normalizeLineItems rest with
      | .error e => .error e
      | .ok tail => .ok (item :: tail)
  | _ :: rest => normalizeLineItems rest

/-- The per-element loop of `analysis_agent.py` lines 145-168. -/
def normalizeAnalysisItems : List Json → Except String (List AnalysisItem)
  | [] => .ok []
  | .obj fs :: rest =>
    match normalizeAnalysisItem fs with
    | .error e => .error e
    | .ok item =>
      match normalizeAnalysisItems rest with
      | .error e => .error e
      | .ok tail => .ok (item :: tail)
  | _ :: rest => normalizeAnalysisItems rest

/-- The whole extraction-stage normalizer (`extraction_agent.py` lines
111-154): a parse failure or a non-list unwrapped value is an error
propagated to the caller. -/
def extraction_normalize (parsed : Except String Json) : Except String (List LineItem) :=
  match parsed with
  | .error e => .error ("Invalid JSON response from Extraction Agent: " ++ e)
  | .ok j =>
    match unwrap_extraction j with
    | .arr elems => normalizeLineItems elems
    | _ => .error "Response is not a list"

/-- The whole analysis-stage normalizer (`analysis_agent.py` lines 124-176). -/
def analysis_normalize (parsed : Except String Json) : Except String (List AnalysisItem) :=
  match parsed with
  | .error e => .error ("Invalid JSON response from Analysis Agent: " ++ e)
  | .ok j =>
    match unwrap_analysis j with
    | .arr elems => normalizeAnalysisItems elems
    | _ => .error "Response is not a list"

/-- Re-encoding of a normalized analysis record by `json.dumps`, in the key
order the source dict literal constructs (`analysis_agent.py` 151-162);
`json.loads ∘ json.dumps` is the identity on this tree. -/
def encodeAnalysisFields (it : AnalysisItem) : List (String × Json) :=
  [("code", Json.str it.code),
   ("description", Json.str it.description),
   ("quantity", Json.num it.quantity),
   ("price", Json.num it.price),
   ("notes", it.notes.getD Json.null),
   ("expected_cost", Json.num it.expected_cost),
   ("overcharge_flag", Json.bool it.overcharge_flag),
   ("flag_level", Json.str it.flag_level),
   ("issue", it.issue.getD Json.null)]

/-- A normalized analysis record as a JSON value. -/
def encodeAnalysisItem (it : AnalysisItem) : Json :=
  Json.obj (encodeAnalysisFields it)

/-- The shape invariant every record leaving the analysis normalizer
satisfies: trimmed text fields, truthy optional fields, and a canonical
flag level.  It is exactly what makes re-normalization the identity. -/
def itemInv (it : AnalysisItem) : Prop :=
  pyStrip it.code = it.code
    ∧ pyStrip it.description = it.description
    ∧ (∀ v, it.notes = some v → jsonTruthy v = true)
    ∧ (it.flag_level = "low" ∨ it.flag_level = "medium" ∨ it.flag_level = "high")
    ∧ (∀ v, it.issue = some v → jsonTruthy v = true)

/-! ## Aggregator (`pipeline.py` lines 129-140) -/

/-- Round-half-even to an integer, the tie-breaking of Python `round`. -/
def roundHalfEven (x : Rat) : Int :=
  let f := ⌊x⌋
  let r := x - (f : Rat)
  if r < 1 / 2 then f
  else if 1 / 2 < r then f + 1
  else if f % 2 = 0 then f else f + 1

/-- Python `round(x, 2)` on the exact-rational model of floats. -/
def round2 (x : Rat) : Rat :=
  ((roundHalfEven (x * 100) : Int) : Rat) / 100

/-- `total_billed = sum(price * quantity)` (`pipeline.py` line 130). -/
def total_billed (items : List AnalysisItem) : Rat :=
  (items.map (fun it => it.price * it.quantity)).sum

/-- `total_expected = sum(expected_cost * quantity)` (`pipeline.py` line 131). -/
def total_expected (items : List AnalysisItem) : Rat :=
  (items.map (fun it => it.expected_cost * it.quantity)).sum

/-- `flagged_items = sum(1 for ... if overcharge_flag)` (`pipeline.py` line 132). -/
def flagged_count (items : List AnalysisItem) : Nat :=
  (items.filter (fun it => it.overcharge_flag)).length

/-- The `summary_stats` dict of `pipeline.py` lines 134-140. -/
structure SummaryStats where
  total_items : Nat
  total_billed : Rat
  total_expected : Rat
  potential_savings : Rat
  flagged_items : Nat

/-- Aggregation exactly as `pipeline.py` lines 129-140: the three monetary
figures are rounded to two decimals once, here at the reporting boundary. -/
def summary_stats (items : List AnalysisItem) : SummaryStats :=
  { total_items := items.length
    total_billed := round2 (total_billed items)
    total_expected := round2 (total_expected items)
    potential_savings := round2 (total_billed items - total_expected items)
    flagged_items := flagged_count items }

/-! ## Stage pipeline (`pipeline.py` lines 85-155)

The three completion-service stages are abstracted as the outcome of the
extraction stage and outcome functions for the analysis and negotiation
stages; `process_medical_bill` sequences them exactly as the source. -/

/-- The negotiation materials triple. -/
structure Negotiation where
  email : String
  phone_script : String
  summary : String

/-- The fixed placeholder materials of `pipeline.py` lines 123-127. -/
def placeholderNegotiation : Negotiation :=
  { email := "No line items were extracted from this bill. Please review the document manually."
    phone_script := "No specific issues were identified. Please review the bill with the billing department."
    summary := "The bill could not be automatically processed. Please review it manually or try again with a clearer image/PDF." }

/-- The result dict of `pipeline.py` lines 143-148. -/
structure PipelineResult where
  extraction : List LineItem
  analysis : List AnalysisItem
  negotiation : Negotiation
  summary_stats : SummaryStats

/-- `process_medical_bill` (`pipeline.py` lines 16-155): extraction, then
analysis (skipped to `[]` on an empty extraction), then negotiation
(replaced by the placeholder triple on an empty analysis), then the
aggregated statistics.  Any stage error propagates unchanged. -/
def process_medical_bill
    (extractionR : Except String (List LineItem))
    (analysisOf : List LineItem → Except String (List AnalysisItem))
    (negotiationOf : List AnalysisItem → Except String Negotiation) :
    Except String PipelineResult :=
  match extractionR with
  | .error e => .error e
  | .ok line_items =>
    match (if line_items.isEmpty then .ok [] else analysisOf line_items) with
    | .error e => .error e
    | .ok analysis_items =>
      match
        (if analysis_items.isEmpty then .ok placeholderNegotiation
         else negotiationOf analysis_items) with
      | .error e => .error e
      | .ok negotiation =>
        .ok
          { extraction := line_items
            analysis := analysis_items
            negotiation := negotiation
            summary_stats := summary_stats analysis_items }

/-! ## Dual extraction selector (`ocr/pipeline.py` lines 32-109)

Each strategy is modelled by the `Except` outcome of invoking it on the
document (strategies are deterministic per document, so the retry of the
OCR strategy inside the exception handler re-observes the same outcome). -/

/-- `len("".join(pages).strip())`, the confidence measure of
`ocr/pipeline.py` lines 67-68. -/
def trimmedTotalLen (pages : List String) : Nat :=
  (pyStrip (String.join pages)).length

/-- The combined failure message of `ocr/pipeline.py` lines 93-97. -/
def combinedOCRError (textError ocrError : String) : String :=
  "Both text extraction and OCR failed. Text extraction error: " ++ textError ++
    ". OCR error: " ++ ocrError

/-- `OCRPipeline.extract` (`ocr/pipeline.py` lines 61-107), returning the
selected pages and the `method` marker (`"text"` or `"ocr"`).  When the
direct result is below threshold, the fallback runs inside the `try`
block, so its failure is caught by the same handler and the fallback is
attempted once more before the combined error is raised. -/
def OCRPipeline_extract (directR fallbackR : Except String (List String))
    (min_text_threshold : Nat) : Except String (List String × String) :=
  match directR with
  | .ok pages =>
    if min_text_threshold ≤ trimmedTotalLen pages then
      .ok (pages, "text")
    else
      match fallbackR with
      | .ok ocrPages => .ok (ocrPages, "ocr")
      | .error textError =>
        match fallbackR with
        | .ok ocrPages => .ok (ocrPages, "ocr")
        | .error ocrError => .error (combinedOCRError textError ocrError)
  | .error textError =>
    match fallbackR with
    | .ok ocrPages => .ok (ocrPages, "ocr")
    | .error ocrError => .error (combinedOCRError textError ocrError)

/-- Default of the `min_text_threshold` parameter (`ocr/pipeline.py` line 36). -/
def default_min_text_threshold : Nat := 50

/-- Whether the selector's outcome shows the fallback strategy was invoked:
either it supplied the pages (`method = "ocr"`) or the run failed, which
only happens after the fallback was tried. -/
def usedFallback : Except String (List String × String) → Bool
  | .ok (_, m) => m == "ocr"
  | .error _ => true

/-- One page outcome of the direct strategy's per-page loop
(`pdf_extractor.py` lines 52-60): `extract_text()` returns text, `None`,
or raises; falsy and failing pages become the empty string. -/
def textPageText : Except String (Option String) → String
  | .ok (some t) => if t = "" then "" else t
  | .ok none => ""
  | .error _ => ""

/-- `TextPDFExtractor.extract` (`pdf_extractor.py` lines 18-67) given the
outcome of opening the document: a list of per-page `extract_text`
outcomes on success, or the failure message of the open itself. -/
def TextPDFExtractor_extract
    (opened : Except String (List (Except String (Option String)))) :
    Except String (List String) :=
  match opened with
  | .error e => .error ("Failed to extract text from PDF: " ++ e)
  | .ok pageResults => .ok (pageResults.map textPageText)

/-- One page outcome of the OCR strategy's per-page loop (`image_ocr.py`
lines 101-108): recognized text is stripped, falsy and failing pages
become the empty string. -/
def ocrPageText : Except String String → String
  | .ok t => if t = "" then "" else pyStrip t
  | .error _ => ""

/-- `ImageOCRExtractor.extract` (`image_ocr.py` lines 42-115) given the
outcome of rasterizing the document into page images. -/
def ImageOCRExtractor_extract
    (converted : Except String (List (Except String String))) :
    Except String (List String) :=
  match converted with
  | .error e => .error e
  | .ok images => .ok (images.map ocrPageText)

/-! ## Debate orchestration (`debate.py` lines 299-424)

A completion call by either persona is abstracted as a total oracle from
(role, round number, previous message) to the generated text, modelling a
run in which every completion-service call succeeds. -/

/-- The two debate personas. -/
inductive Role where
  | fighter : Role
  | hospital : Role

/-- One transcript entry (`{"role": ..., "content": ...}`). -/
structure DebateMessage where
  role : Role
  content : String

/-- The clamp of `debate.py` line 357: `max(1, min(num_rounds, max_rounds))`. -/
def debateClamp (num_rounds max_rounds : Int) : Int :=
  max 1 (min num_rounds max_rounds)

/-- `DebateManager.run_debate` (`debate.py` lines 321-424): reject an empty
bill, clamp the requested rounds (defaulting to `max_rounds`, whose
constructor default is 10), then run the hand-unrolled exchanges — round 1
always, round 2 when the clamped count is at least 2, round 3 when it is at
least 3.  Rounds beyond the third are never executed.  Each state carries
the transcript so far and the previous message. -/
def run_debate (oracle : Role → Nat → Option String → String)
    (max_rounds : Int) (bill_json : List AnalysisItem) (num_rounds : Option Int) :
    Except String (List DebateMessage) :=
  if bill_json.isEmpty then
    .error "bill_json must be a non-empty list of line items"
  else
    let n := debateClamp (num_rounds.getD max_rounds) max_rounds
    let fighter1 := oracle .fighter 1 none
    let hospital1 := oracle .hospital 1 (some fighter1)
    let st1 : List DebateMessage × String :=
      ([⟨.fighter, fighter1⟩, ⟨.hospital, hospital1⟩], hospital1)
    let st2 : List DebateMessage × String :=
      if 2 ≤ n then
        let fighter2 := oracle .fighter 2 (some st1.2)
        let hospital2 := oracle .hospital 2 (some fighter2)
        (st1.1 ++ [⟨.fighter, fighter2⟩, ⟨.hospital, hospital2⟩], hospital2)
      else st1
    let st3 : List DebateMessage × String :=
      if 3 ≤ n then
        let fighter3 := oracle .fighter 3 (some st2.2)
        let hospital3 := oracle .hospital 3 (some fighter3)
        (st2.1 ++ [⟨.fighter, fighter3⟩, ⟨.hospital, hospital3⟩], hospital3)
      else st2
    .ok st3.1

/-- A sample analysis record used as concrete input in several checks. -/
def sampleItem : AnalysisItem :=
  { code := "99213"
    description := "Office visit"
    quantity := 1
    price := 80
    notes := none
    expected_cost := 100
    overcharge_flag := false
    flag_level := "low"
    issue := none }

/-- A 52-character page used as a concrete above-threshold direct result. -/
def samplePage : String := "ABCDEFGHIJKLMNOPQRSTUVWXYZabcdefghijklmnopqrstuvwxyz"

/-- A sample extraction record used as concrete input in several checks. -/
def sampleLineItem : LineItem :=
  { code := "99213"
    description := "Office visit"
    quantity := 1
    price := 80
    notes := none }

/-! ## Helper lemmas -/

/-- Round-half-even is the identity on integers. -/
theorem roundHalfEven_intCast (n : Int) : roundHalfEven (n : Rat) = n := by
  unfold roundHalfEven
  rw [Int.floor_intCast]
  norm_num

/-- Two-decimal rounding is the identity on integers. -/
theorem round2_intCast (n : Int) : round2 ((n : Int) : Rat) = (n : Rat) := by
  unfold round2
  rw [show ((n : Rat) * 100) = (((n * 100 : Int) : Int) : Rat) by push_cast; ring,
    roundHalfEven_intCast]
  push_cast
  field_simp

/-- Two-decimal rounding fixes zero. -/
theorem round2_zero : round2 0 = 0 := by
  have h := round2_intCast 0
  simpa using h

/-- The aggregator sends the empty collection to the all-zero statistics. -/
theorem summary_stats_nil : summary_stats [] = ⟨0, 0, 0, 0, 0⟩ := by
  unfold summary_stats total_billed total_expected flagged_count
  simp [round2_zero]

/-! ## Claim theorems -/

/-- C1: the claim fails on the code.  With the constructor default
`max_rounds = 10` and a request of 4 rounds, the clamp keeps 4, so the
claim requires `2 × clamp(4, 1, 10) = 8` messages; the hand-unrolled
`run_debate` stops after round 3 and returns only 6 (the roles do
alternate fighter/hospital starting with fighter).  The code contradicts
its own documentation: the `DebateManager.__init__` docstring states
`max_rounds` defaults to 3 (the value the unrolled body supports), while
the code passes 10, and the `run_debate` docstring promises 2 messages per
requested round. -/
theorem run_debate_round_cap_divergence :
    run_debate (fun _ _ _ => "m") 10 [sampleItem] (some 4) =
        .ok [⟨.fighter, "m"⟩, ⟨.hospital, "m"⟩, ⟨.fighter, "m"⟩, ⟨.hospital, "m"⟩,
             ⟨.fighter, "m"⟩, ⟨.hospital, "m"⟩]
      ∧ 2 * debateClamp 4 10 = 8 :=
  ⟨rfl, rfl⟩

/-- C10: `run_debate` rejects an empty analysis collection up front with
the `ValueError` message, for every completion oracle (so no completion
call is consulted), every `max_rounds` and every requested round count. -/
theorem run_debate_rejects_empty (oracle : Role → Nat → Option String → String)
    (max_rounds : Int) (num_rounds : Option Int) :
    run_debate oracle max_rounds [] num_rounds =
      .error "bill_json must be a non-empty list of line items" :=
  rfl

/-- C4: the reported `potential_savings` is exactly the two-decimal
rounding of `total_billed − total_expected` (rounding is applied once, at
this reporting boundary, to each figure); the empty collection yields the
all-zero statistics; and a collection whose expected total exceeds its
billed total reports a negative value (no clamping): `sampleItem` bills 80
against an expected 100 and reports −20. -/
theorem potential_savings_exact :
    (∀ items, (summary_stats items).potential_savings
        = round2 (total_billed items - total_expected items))
      ∧ summary_stats [] = ⟨0, 0, 0, 0, 0⟩
      ∧ total_billed [sampleItem] - total_expected [sampleItem] = -20
      ∧ (summary_stats [sampleItem]).potential_savings = -20
      ∧ (summary_stats [sampleItem]).potential_savings < 0 := by
  have hneg : (summary_stats [sampleItem]).potential_savings = -20 := by
    unfold summary_stats total_billed total_expected sampleItem
    have h : round2 (-20) = -20 := by
      have h2 := round2_intCast (-20)
      norm_num at h2
      exact h2
    norm_num [h]
  refine ⟨fun items => rfl, summary_stats_nil, ?_, hneg, ?_⟩
  · unfold total_billed total_expected sampleItem
    norm_num
  · rw [hneg]
    norm_num

/-- C8: when the direct strategy raises, the selector invokes the
fallback and returns its pages; when the fallback then also fails, the
single surfaced error is the combined message naming both root causes in
full.  Inside either strategy the per-page loop never aborts the
document: the page list always comes back with one entry per page, and a
failed page is replaced by the empty string. -/
theorem ocr_error_combination_and_page_resilience :
    (∀ e fbPages thr, OCRPipeline_extract (.error e) (.ok fbPages) thr = .ok (fbPages, "ocr"))
      ∧ (∀ e1 e2 thr, OCRPipeline_extract (.error e1) (.error e2) thr =
          .error ("Both text extraction and OCR failed. Text extraction error: " ++ e1 ++
            ". OCR error: " ++ e2))
      ∧ (∀ rs, TextPDFExtractor_extract (.ok rs) = .ok (rs.map textPageText))
      ∧ (∀ e, textPageText (.error e) = "")
      ∧ (∀ rs, ImageOCRExtractor_extract (.ok rs) = .ok (rs.map ocrPageText))
      ∧ (∀ e, ocrPageText (.error e) = "") :=
  ⟨fun _ _ _ => rfl, fun _ _ _ => rfl, fun _ => rfl, fun _ => rfl, fun _ => rfl, fun _ => rfl⟩

/-- C2: the selector invokes the fallback strategy exactly when the direct
strategy raised or its combined whitespace-trimmed text length is strictly
below the threshold; when the trimmed length meets or exceeds the
threshold the direct pages come back with `method = "text"` and the result
does not depend on the fallback strategy at all (it is never invoked). -/
theorem ocr_fallback_iff (directR fallbackR : Except String (List String)) (thr : Nat) :
    (usedFallback (OCRPipeline_extract directR fallbackR thr) = true ↔
      (∃ e, directR = .error e) ∨ ∃ pages, directR = .ok pages ∧ trimmedTotalLen pages < thr)
      ∧ (∀ pages, directR = .ok pages → thr ≤ trimmedTotalLen pages →
          ∀ fallbackR2, OCRPipeline_extract directR fallbackR2 thr = .ok (pages, "text")) := by
  constructor
  · cases directR with
    | ok pages =>
      by_cases h : thr ≤ trimmedTotalLen pages
      · simp only [OCRPipeline_extract, if_pos h, usedFallback]
        simp
        omega
      · cases fallbackR with
        | ok fbPages =>
          simp only [OCRPipeline_extract, if_neg h, usedFallback]
          simp
          omega
        | error e =>
          simp only [OCRPipeline_extract, if_neg h, usedFallback]
          simp
          omega
    | error e =>
      cases fallbackR with
      | ok fbPages => simp [OCRPipeline_extract, usedFallback]
      | error e2 => simp [OCRPipeline_extract, usedFallback]
  · intro pages hdir hlen fallbackR2
    subst hdir
    simp [OCRPipeline_extract, if_pos hlen]

/-- Witness for `ocr_fallback_iff`: a 52-character direct result against
the default threshold 50 is accepted as `method = "text"` even though the
fallback strategy would fail if consulted. -/
theorem ocr_fallback_iff_witness :
    OCRPipeline_extract (.ok [samplePage]) (.error "ocr failed") 50 = .ok ([samplePage], "text") :=
  (ocr_fallback_iff (.ok [samplePage]) (.error "ocr failed") 50).2 [samplePage] rfl
    (by decide) (.error "ocr failed")

/-- C7: whenever the analysis collection is empty, the pipeline still
succeeds — the negotiation stage is skipped in favour of the fixed
placeholder triple and the summary statistics are all zero.  The second
conjunct covers the empty-extraction route, the third the route where the
analysis stage itself returns an empty collection; in both the negotiation
outcome function is arbitrary (it is never consulted). -/
theorem pipeline_empty_degradation :
    (∀ er ao no r, process_medical_bill er ao no = .ok r → r.analysis = [] →
      r.negotiation = placeholderNegotiation ∧ r.summary_stats = ⟨0, 0, 0, 0, 0⟩)
      ∧ (∀ ao no, process_medical_bill (.ok []) ao no =
          .ok ⟨[], [], placeholderNegotiation, ⟨0, 0, 0, 0, 0⟩⟩)
      ∧ (∀ li ao no, ao li = .ok [] → ¬ li.isEmpty = true →
          process_medical_bill (.ok li) ao no =
            .ok ⟨li, [], placeholderNegotiation, ⟨0, 0, 0, 0, 0⟩⟩) := by
  refine ⟨?_, ?_, ?_⟩
  · intro er ao no r h hempty
    unfold process_medical_bill at h
    split at h
    · exact absurd h (by simp)
    · split at h
      · exact absurd h (by simp)
      · rename_i analysis_items heq2
        split at h
        · exact absurd h (by simp)
        · rename_i negotiation heq3
          injection h with h
          subst h
          simp only at hempty
          subst hempty
          rw [summary_stats_nil]
          refine ⟨?_, rfl⟩
          split at heq3
          · injection heq3 with heq3
            exact heq3.symm
          · rename_i hne
            simp at hne
  · intro ao no
    have h : summary_stats [] = ⟨0, 0, 0, 0, 0⟩ := summary_stats_nil
    unfold process_medical_bill
    simp only [List.isEmpty_nil, if_true, h]
  · intro li ao no hao hli
    unfold process_medical_bill
    simp only [if_neg hli, hao, List.isEmpty_nil, if_true, summary_stats_nil]

/-- Witness for `pipeline_empty_degradation`: a one-item extraction whose
analysis stage returns the empty collection; the pipeline succeeds with
the placeholder triple and all-zero statistics even though the negotiation
stage, had it been invoked, would have failed. -/
theorem pipeline_empty_degradation_witness :
    process_medical_bill (.ok [sampleLineItem]) (fun _ => .ok [])
        (fun _ => .error "negotiation agent failure") =
      .ok ⟨[sampleLineItem], [], placeholderNegotiation, ⟨0, 0, 0, 0, 0⟩⟩ :=
  pipeline_empty_degradation.2.2 [sampleLineItem] (fun _ => .ok [])
    (fun _ => .error "negotiation agent failure") rfl (by decide)

/-- C3: on a keyed mapping the analysis-stage payload is selected by the
exact precedence `line_items`, `items`, `analysis`, then (when none of the
keys is present) the single key's value, then the first value that is
itself a list, then the empty list; in particular the analysis response
`{"analysis": [{"code": "X"}]}` (braces paraphrased) normalizes to exactly
one record with `price = 0`, `quantity = 1`, `expected_cost = 0`,
`flag_level = "low"`, `overcharge_flag = false`. -/
theorem analysis_unwrap_precedence :
    (∀ fs v, lookupField fs "line_items" = some v → unwrap_analysis (.obj fs) = v)
      ∧ (∀ fs v, lookupField fs "line_items" = none → lookupField fs "items" = some v →
          unwrap_analysis (.obj fs) = v)
      ∧ (∀ fs v, lookupField fs "line_items" = none → lookupField fs "items" = none →
          lookupField fs "analysis" = some v → unwrap_analysis (.obj fs) = v)
      ∧ (∀ k v, lookupField [(k, v)] "line_items" = none → lookupField [(k, v)] "items" = none →
          lookupField [(k, v)] "analysis" = none → unwrap_analysis (.obj [(k, v)]) = v)
      ∧ (∀ fs, lookupField fs "line_items" = none → lookupField fs "items" = none →
          lookupField fs "analysis" = none → fs.length ≠ 1 →
          (∀ kv, fs.find? (fun p => (p.2).isArr) = some kv → unwrap_analysis (.obj fs) = kv.2)
            ∧ (fs.find? (fun p => (p.2).isArr) = none → unwrap_analysis (.obj fs) = Json.arr []))
      ∧ analysis_normalize (.ok (.obj [("analysis", Json.arr [Json.obj [("code", Json.str "X")]])])) =
          .ok [{ code := "X", description := "", quantity := 1, price := 0, notes := none,
                 expected_cost := 0, overcharge_flag := false, flag_level := "low", issue := none }] := by
  refine ⟨?_, ?_, ?_, ?_, ?_, rfl⟩
  · intro fs v h
    simp only [unwrap_analysis]
    rw [h]
  · intro fs v h1 h2
    simp only [unwrap_analysis]
    rw [h1, h2]
  · intro fs v h1 h2 h3
    simp only [unwrap_analysis]
    rw [h1, h2, h3]
  · intro k v h1 h2 h3
    simp only [unwrap_analysis]
    rw [h1, h2, h3]
  · intro fs h1 h2 h3 hlen
    constructor
    · intro kv hfind
      simp only [unwrap_analysis]
      rw [h1, h2, h3]
      match fs, hlen with
      | [], _ => simp at hfind
      | a :: b :: rest, _ =>
        simp only [hfind]
      | [a], hlen => exact absurd rfl hlen
    · intro hfind
      simp only [unwrap_analysis]
      rw [h1, h2, h3]
      match fs, hlen with
      | [], _ => rfl
      | a :: b :: rest, _ => simp only [hfind]
      | [a], hlen => exact absurd rfl hlen

/-- Witness for `analysis_unwrap_precedence`: a mapping carrying both
`line_items` and `analysis` unwraps to the `line_items` value. -/
theorem analysis_unwrap_precedence_witness :
    unwrap_analysis (.obj [("line_items", Json.arr []), ("analysis", Json.str "ignored")]) =
      Json.arr [] :=
  analysis_unwrap_precedence.1 [("line_items", Json.arr []), ("analysis", Json.str "ignored")]
    (Json.arr []) rfl

/-! ### Helper lemmas for the normalizer invariant -/

/-- A prefix of a list whose front is already stripped is itself stripped. -/
theorem dropWhile_eq_self_of_start {p : Char → Bool} {m m' : List Char}
    (hm : m.dropWhile p = m) (hpre : m' <+: m) : m'.dropWhile p = m' := by
  cases m' with
  | nil => rfl
  | cons a t =>
    obtain ⟨s, hs⟩ := hpre
    subst hs
    rw [List.cons_append] at hm
    rw [List.dropWhile_cons] at hm ⊢
    by_cases h : p a
    · rw [if_pos h] at hm
      exfalso
      have hle := (List.dropWhile_suffix (l := t ++ s) p).sublist.length_le
      rw [hm] at hle
      simp at hle
    · simp [h]

/-- Two-sided whitespace stripping is idempotent. -/
theorem stripChars_idem (l : List Char) : stripChars (stripChars l) = stripChars l := by
  show List.rdropWhile isPySpace ((stripChars l).dropWhile isPySpace) = stripChars l
  have hdm : (l.dropWhile isPySpace).dropWhile isPySpace = l.dropWhile isPySpace :=
    List.dropWhile_idempotent _ _
  have hpre : stripChars l <+: l.dropWhile isPySpace := List.rdropWhile_prefix _ _
  rw [dropWhile_eq_self_of_start hdm hpre]
  exact List.rdropWhile_idempotent _ _

/-- Python `strip` is idempotent. -/
theorem pyStrip_idem (s : String) : pyStrip (pyStrip s) = pyStrip s :=
  congrArg String.mk (stripChars_idem s.data)

/-- Inversion for the analysis-item normalizer: a successful result is the
record the source dict literal constructs, for some successfully cast
numeric fields. -/
theorem normalizeAnalysisItem_ok {fs : List (String × Json)} {it : AnalysisItem}
    (h : normalizeAnalysisItem fs = .ok it) :
    ∃ quantity price expected_cost,
      it = { code := pyStrip (pyStr ((lookupField fs "code").getD (Json.str "")))
             description := pyStrip (pyStr ((lookupField fs "description").getD (Json.str "")))
             quantity := quantity
             price := price
             notes :=
               if jsonTruthy ((lookupField fs "notes").getD Json.null) then
                 some ((lookupField fs "notes").getD Json.null)
               else none
             expected_cost := expected_cost
             overcharge_flag := jsonTruthy ((lookupField fs "overcharge_flag").getD (Json.bool false))
             flag_level :=
               if pyLower (pyStr ((lookupField fs "flag_level").getD (Json.str "low"))) = "low"
                   ∨ pyLower (pyStr ((lookupField fs "flag_level").getD (Json.str "low"))) = "medium"
                   ∨ pyLower (pyStr ((lookupField fs "flag_level").getD (Json.str "low"))) = "high" then
                 pyLower (pyStr ((lookupField fs "flag_level").getD (Json.str "low")))
               else "low"
             issue :=
               if jsonTruthy ((lookupField fs "issue").getD Json.null) then
                 some ((lookupField fs "issue").getD Json.null)
               else none } := by
  unfold normalizeAnalysisItem at h
  split at h
  · exact absurd h (by simp)
  · rename_i q hq
    split at h
    · exact absurd h (by simp)
    · rename_i p hp
      split at h
      · exact absurd h (by simp)
      · rename_i ec hec
        injection h with h
        exact ⟨q, p, ec, h.symm⟩

/-- Every record the analysis-item normalizer emits satisfies `itemInv`. -/
theorem normalizeAnalysisItem_inv {fs : List (String × Json)} {it : AnalysisItem}
    (h : normalizeAnalysisItem fs = .ok it) : itemInv it := by
  obtain ⟨q, p, ec, rfl⟩ := normalizeAnalysisItem_ok h
  refine ⟨pyStrip_idem _, pyStrip_idem _, ?_, ?_, ?_⟩
  · intro v hv
    simp only at hv
    split at hv
    · rename_i ht
      injection hv with hv
      subst hv
      exact ht
    · exact absurd hv (by simp)
  · simp only
    split
    · rename_i hmem
      exact hmem
    · exact Or.inl rfl
  · intro v hv
    simp only at hv
    split at hv
    · rename_i ht
      injection hv with hv
      subst hv
      exact ht
    · exact absurd hv (by simp)

/-- Every record in a normalized analysis batch satisfies `itemInv`. -/
theorem normalizeAnalysisItems_inv {elems : List Json} {out : List AnalysisItem}
    (h : normalizeAnalysisItems elems = .ok out) : ∀ it ∈ out, itemInv it := by
  induction elems generalizing out with
  | nil =>
    simp only [normalizeAnalysisItems] at h
    injection h with h
    subst h
    intro it hit
    exact absurd hit (by simp)
  | cons j rest ih =>
    cases j with
    | obj fs =>
      simp only [normalizeAnalysisItems] at h
      split at h
      · exact absurd h (by simp)
      · rename_i item hitem
        split at h
        · exact absurd h (by simp)
        · rename_i tail htail
          injection h with h
          subst h
          intro it hit
          rcases List.mem_cons.mp hit with hh | ht
          · subst hh
            exact normalizeAnalysisItem_inv hitem
          · exact ih htail it ht
    | null => exact ih h
    | bool b => exact ih h
    | num q => exact ih h
    | str s => exact ih h
    | arr l => exact ih h

/-- C5 counterexample: the claim says any input `flag_level` other than
the three canonical values is coerced to `"low"`, but the code lowercases
first: the input value `"HIGH"` — not one of the three canonical values —
normalizes to `"high"`, not `"low"`. -/
theorem flag_level_uppercase_counterexample :
    (normalizeAnalysisItem [("flag_level", Json.str "HIGH")]).map AnalysisItem.flag_level =
        .ok "high"
      ∧ ¬("HIGH" = "low" ∨ "HIGH" = "medium" ∨ "HIGH" = "high")
      ∧ ("high" : String) ≠ "low" :=
  ⟨rfl, by decide, by decide⟩

/-- C5 (amended): every record leaving the analysis normalizer has
`flag_level` in the closed enum, and the stringified, lowercased input
value is coerced to `"low"` exactly when that lowercased form (default
`"low"` when the key is missing) is not one of the three canonical
values. -/
theorem flag_level_coercion :
    (∀ fs it, normalizeAnalysisItem fs = .ok it →
      (it.flag_level = "low" ∨ it.flag_level = "medium" ∨ it.flag_level = "high")
        ∧ (¬(pyLower (pyStr ((lookupField fs "flag_level").getD (Json.str "low"))) = "low"
              ∨ pyLower (pyStr ((lookupField fs "flag_level").getD (Json.str "low"))) = "medium"
              ∨ pyLower (pyStr ((lookupField fs "flag_level").getD (Json.str "low"))) = "high") →
            it.flag_level = "low"))
      ∧ (∀ p out, analysis_normalize p = .ok out → ∀ it, it ∈ out →
          it.flag_level = "low" ∨ it.flag_level = "medium" ∨ it.flag_level = "high") := by
  constructor
  · intro fs it h
    obtain ⟨q, pr, ec, rfl⟩ := normalizeAnalysisItem_ok h
    constructor
    · simp only
      split
      · rename_i hmem
        exact hmem
      · exact Or.inl rfl
    · intro hnot
      simp only
      rw [if_neg hnot]
  · intro p out h it hit
    unfold analysis_normalize at h
    split at h
    · exact absurd h (by simp)
    · split at h
      · exact ((normalizeAnalysisItems_inv h) it hit).2.2.2.1
      · exact absurd h (by simp)

/-- Witness for `flag_level_coercion`: the junk value `"weird"` is coerced
to `"low"`. -/
theorem flag_level_coercion_witness :
    (normalizeAnalysisItem [("flag_level", Json.str "weird")]).map AnalysisItem.flag_level =
      .ok "low" := by
  have h : normalizeAnalysisItem [("flag_level", Json.str "weird")] =
      .ok { code := "", description := "", quantity := 1, price := 0, notes := none,
            expected_cost := 0, overcharge_flag := false, flag_level := "low", issue := none } :=
    rfl
  have hcoerce := (flag_level_coercion.1 [("flag_level", Json.str "weird")] _ h).2 (by decide)
  rw [h]
  exact congrArg Except.ok hcoerce

/-- C6: a parse failure of either normalization stage is an error carrying
the decoder's message; a successfully parsed value that does not unwrap to
a list is the fatal `"Response is not a list"` error; and within a valid
list, elements that are not keyed records are silently discarded, the
output being exactly the normalization of the record-shaped elements. -/
theorem normalize_parse_and_element_errors :
    (∀ e, extraction_normalize (.error e) =
        .error ("Invalid JSON response from Extraction Agent: " ++ e))
      ∧ (∀ e, analysis_normalize (.error e) =
          .error ("Invalid JSON response from Analysis Agent: " ++ e))
      ∧ (∀ j, (unwrap_extraction j).isArr = false →
          extraction_normalize (.ok j) = .error "Response is not a list")
      ∧ (∀ j, (unwrap_analysis j).isArr = false →
          analysis_normalize (.ok j) = .error "Response is not a list")
      ∧ (∀ elems, normalizeLineItems elems = (elems.filterMap Json.asObj).mapM normalizeLineItem)
      ∧ (∀ elems, normalizeAnalysisItems elems =
          (elems.filterMap Json.asObj).mapM normalizeAnalysisItem) := by
  refine ⟨fun e => rfl, fun e => rfl, ?_, ?_, ?_, ?_⟩
  · intro j hj
    unfold extraction_normalize
    split
    · rename_i e heq
      exact absurd heq (by simp)
    · rename_i j2 heq
      injection heq with heq
      subst heq
      split
      · rename_i elems heq2
        rw [heq2] at hj
        exact absurd hj (by simp [Json.isArr])
      · rfl
  · intro j hj
    unfold analysis_normalize
    split
    · rename_i e heq
      exact absurd heq (by simp)
    · rename_i j2 heq
      injection heq with heq
      subst heq
      split
      · rename_i elems heq2
        rw [heq2] at hj
        exact absurd hj (by simp [Json.isArr])
      · rfl
  · intro elems
    induction elems with
    | nil => rfl
    | cons j rest ih =>
      cases j with
      | obj fs =>
        simp only [normalizeLineItems, List.filterMap_cons, Json.asObj, List.mapM_cons, ih]
        cases normalizeLineItem fs with
        | error e => simp [Bind.bind, Except.bind]
        | ok item =>
          cases (rest.filterMap Json.asObj).mapM normalizeLineItem with
          | error e => simp [Bind.bind, Except.bind, pure, Except.pure]
          | ok tail => simp [Bind.bind, Except.bind, pure, Except.pure]
      | null => simpa [normalizeLineItems, List.filterMap_cons, Json.asObj] using ih
      | bool b => simpa [normalizeLineItems, List.filterMap_cons, Json.asObj] using ih
      | num q => simpa [normalizeLineItems, List.filterMap_cons, Json.asObj] using ih
      | str s => simpa [normalizeLineItems, List.filterMap_cons, Json.asObj] using ih
      | arr l => simpa [normalizeLineItems, List.filterMap_cons, Json.asObj] using ih
  · intro elems
    induction elems with
    | nil => rfl
    | cons j rest ih =>
      cases j with
      | obj fs =>
        simp only [normalizeAnalysisItems, List.filterMap_cons, Json.asObj, List.mapM_cons, ih]
        cases normalizeAnalysisItem fs with
        | error e => simp [Bind.bind, Except.bind]
        | ok item =>
          cases (rest.filterMap Json.asObj).mapM normalizeAnalysisItem with
          | error e => simp [Bind.bind, Except.bind, pure, Except.pure]
          | ok tail => simp [Bind.bind, Except.bind, pure, Except.pure]
      | null => simpa [normalizeAnalysisItems, List.filterMap_cons, Json.asObj] using ih
      | bool b => simpa [normalizeAnalysisItems, List.filterMap_cons, Json.asObj] using ih
      | num q => simpa [normalizeAnalysisItems, List.filterMap_cons, Json.asObj] using ih
      | str s => simpa [normalizeAnalysisItems, List.filterMap_cons, Json.asObj] using ih
      | arr l => simpa [normalizeAnalysisItems, List.filterMap_cons, Json.asObj] using ih

/-- Witness for `normalize_parse_and_element_errors`: a top-level string
is not list-shaped, so the extraction stage fails with the parse error. -/
theorem normalize_parse_and_element_errors_witness :
    extraction_normalize (.ok (Json.str "not a list")) = .error "Response is not a list" :=
  normalize_parse_and_element_errors.2.2.1 (Json.str "not a list") rfl

/-- Re-normalizing an encoded normalized record reduces to the record with
its idempotent coercions re-applied. -/
theorem normalizeAnalysisItem_encode_eq (it : AnalysisItem) :
    normalizeAnalysisItem (encodeAnalysisFields it) = .ok
      { code := pyStrip it.code
        description := pyStrip it.description
        quantity := it.quantity
        price := it.price
        notes :=
          if jsonTruthy (it.notes.getD Json.null) then some (it.notes.getD Json.null) else none
        expected_cost := it.expected_cost
        overcharge_flag := it.overcharge_flag
        flag_level :=
          if pyLower it.flag_level = "low" ∨ pyLower it.flag_level = "medium"
              ∨ pyLower it.flag_level = "high" then
            pyLower it.flag_level
          else "low"
        issue :=
          if jsonTruthy (it.issue.getD Json.null) then some (it.issue.getD Json.null) else none } :=
  rfl

/-- Re-normalizing the encoding of an `itemInv` record is the identity. -/
theorem normalizeAnalysisItem_encode {it : AnalysisItem} (h : itemInv it) :
    normalizeAnalysisItem (encodeAnalysisFields it) = .ok it := by
  obtain ⟨hc, hd, hn, hf, hi⟩ := h
  rw [normalizeAnalysisItem_encode_eq]
  have hnotes :
      (if jsonTruthy (it.notes.getD Json.null) then some (it.notes.getD Json.null) else none) =
        it.notes := by
    cases hv : it.notes with
    | none => rfl
    | some v => simp [hn v hv]
  have hissue :
      (if jsonTruthy (it.issue.getD Json.null) then some (it.issue.getD Json.null) else none) =
        it.issue := by
    cases hv : it.issue with
    | none => rfl
    | some v => simp [hi v hv]
  have hflag :
      (if pyLower it.flag_level = "low" ∨ pyLower it.flag_level = "medium"
          ∨ pyLower it.flag_level = "high" then pyLower it.flag_level else "low") =
        it.flag_level := by
    rcases hf with h | h | h <;> rw [h] <;> decide
  rw [hnotes, hissue, hflag, hc, hd]

/-- Re-normalizing the encoding of a batch of `itemInv` records is the
identity. -/
theorem normalizeAnalysisItems_encode {out : List AnalysisItem} (h : ∀ it ∈ out, itemInv it) :
    normalizeAnalysisItems (out.map encodeAnalysisItem) = .ok out := by
  induction out with
  | nil => rfl
  | cons it rest ih =>
    show normalizeAnalysisItems (Json.obj (encodeAnalysisFields it) :: rest.map encodeAnalysisItem)
      = .ok (it :: rest)
    simp only [normalizeAnalysisItems]
    rw [normalizeAnalysisItem_encode (h it (List.mem_cons_self it rest)),
      ih (fun x hx => h x (List.mem_cons_of_mem it hx))]

/-- C9: the analysis normalizer is idempotent — any collection it produced,
re-encoded to JSON (`json.dumps` then `json.loads`, the identity on the
tree) and normalized again, comes back unchanged. -/
theorem analysis_normalize_idempotent (p : Except String Json) (out : List AnalysisItem)
    (h : analysis_normalize p = .ok out) :
    analysis_normalize (.ok (.arr (out.map encodeAnalysisItem))) = .ok out := by
  have hinv : ∀ it ∈ out, itemInv it := by
    unfold analysis_normalize at h
    split at h
    · exact absurd h (by simp)
    · split at h
      · exact normalizeAnalysisItems_inv h
      · exact absurd h (by simp)
  show normalizeAnalysisItems (out.map encodeAnalysisItem) = .ok out
  exact normalizeAnalysisItems_encode hinv

/-- Witness for `analysis_normalize_idempotent`: the record produced from
`[{"code": " X "}]` (braces paraphrased) survives one more round trip
unchanged. -/
theorem analysis_normalize_idempotent_witness :
    analysis_normalize (.ok (.arr ((
        [{ code := "X", description := "", quantity := 1, price := 0, notes := none,
           expected_cost := 0, overcharge_flag := false, flag_level := "low", issue := none }] :
          List AnalysisItem).map encodeAnalysisItem))) =
      .ok [{ code := "X", description := "", quantity := 1, price := 0, notes := none,
             expected_cost := 0, overcharge_flag := false, flag_level := "low", issue := none }] :=
  analysis_normalize_idempotent (.ok (.arr [.obj [("code", Json.str " X ")]])) _ rfl

end HealthHero
